import Mathlib

/-! Verification of the mediaplayer domain model (`src/mediaplayer/src/main.rs`).

The program keeps an in-memory `HashMap<String, Vec<String>>` from playlist
name to song sequence, and exposes three operations: `create_playlist`,
`add_song` and `play_song`.  We embed the map as a function
`String → Option (List String)` (pointwise lookup/insert, matching the
HashMap's `contains_key` / `get` / `get_mut` / `insert` semantics; iteration
order is irrelevant to every property below).  The two mutating operations
take the collection and return the result together with the post-state,
mirroring the `&mut Playlists` parameter; `play_song` takes the collection by
shared reference, which we embed by returning the state untouched in every
branch.
-/

/-- Error enumeration, one constructor per variant of `enum MusicError`. -/
inductive MusicError : Type where
  | PlaylistAlreadyExists : String → MusicError
  | PlaylistNotFound : String → MusicError
  | SongAlreadyInPlaylist : String → MusicError
  | SongNotFound : String → MusicError
  | EmptyPlaylist : String → MusicError
  | Offline : MusicError
  | InvalidUser : MusicError
deriving DecidableEq

/-- The playlist collection: `type Playlists = HashMap<String, Vec<String>>`,
embedded as a lookup function. -/
def Playlists : Type := String → Option (List String)

/-- HashMap lookup membership test, `playlists.contains_key(name)`. -/
def Playlists.containsKey (ps : Playlists) (name : String) : Bool :=
  (ps name).isSome

/-- HashMap insertion, `playlists.insert(name, songs)`: pointwise update. -/
def Playlists.insert (ps : Playlists) (name : String) (songs : List String) :
    Playlists :=
  fun k => if k = name then some songs else ps k

/-- The collection at process start: `HashMap::new()`, no keys. -/
def emptyPlaylists : Playlists := fun _ => none

/-- Single quote character, used in the playback message format string. -/
def quoteMark : String := String.singleton (Char.ofNat 39)

/-- Playback success message, `format!("♪  Afspiller nu: '{}'  ♪", song)`. -/
def playMessage (song : String) : String :=
  "♪  Afspiller nu: " ++ quoteMark ++ song ++ quoteMark ++ "  ♪"

/-- Embedding of `create_playlist(playlists, name)`: fails with
`PlaylistAlreadyExists` when the key exists, otherwise inserts the key mapped
to an empty vector.  The second component is the collection after the call. -/
def create_playlist (ps : Playlists) (name : String) :
    Except MusicError Unit × Playlists :=
  if ps.containsKey name then
    (Except.error (MusicError.PlaylistAlreadyExists name), ps)
  else
    (Except.ok (), ps.insert name [])

/-- Embedding of `add_song(playlists, playlist, song)`: looks the playlist up
(`get_mut ... ok_or_else PlaylistNotFound`), rejects a duplicate song
(`songs.contains`), otherwise pushes the song at the end. -/
def add_song (ps : Playlists) (playlist song : String) :
    Except MusicError Unit × Playlists :=
  match ps playlist with
  | none => (Except.error (MusicError.PlaylistNotFound playlist), ps)
  | some songs =>
    if songs.contains song then
      (Except.error (MusicError.SongAlreadyInPlaylist song), ps)
    else
      (Except.ok (), ps.insert playlist (songs ++ [song]))

/-- Embedding of `play_song(playlists, playlist, song, online)`: lookup
(`get ... ok_or_else PlaylistNotFound`), emptiness check (`is_empty`), song
search (`iter().find(|s| s.as_str() == song)`), connectivity check, success
message.  The collection is taken by shared reference, so every branch
returns it unchanged. -/
def play_song (ps : Playlists) (playlist song : String) (online : Bool) :
    Except MusicError String × Playlists :=
  match ps playlist with
  | none => (Except.error (MusicError.PlaylistNotFound playlist), ps)
  | some songs =>
    if songs.isEmpty then
      (Except.error (MusicError.EmptyPlaylist playlist), ps)
    else
      match songs.find? (fun s => s == song) with
      | none => (Except.error (MusicError.SongNotFound song), ps)
      | some _ =>
        if !online then
          (Except.error MusicError.Offline, ps)
        else
          (Except.ok (playMessage song), ps)

/-- One domain-model call, as dispatched by the menu handlers. -/
inductive Op : Type where
  | create : String → Op
  | addSong : String → String → Op
  | play : String → String → Bool → Op

/-- The collection after one domain-model call (the handlers discard no
state: each call's post-state becomes the next call's pre-state). -/
def applyOp (ps : Playlists) : Op → Playlists
  | Op.create n => (create_playlist ps n).2
  | Op.addSong p s => (add_song ps p s).2
  | Op.play p s o => (play_song ps p s o).2

/-- The collection after a whole sequence of domain-model calls, starting
from a given state. -/
def runOps (ps : Playlists) (ops : List Op) : Playlists :=
  ops.foldl applyOp ps

/-- Discriminator for the reserved `InvalidUser` error variant. -/
def isInvalidUser {α : Type} : Except MusicError α → Bool
  | Except.error MusicError.InvalidUser => true
  | _ => false

/-- The playlist collection has no duplicate song inside any playlist. -/
def NodupInv (ps : Playlists) : Prop :=
  ∀ n songs, ps n = some songs → songs.Nodup

/-- A sample reachable state: playlist `"a"` holding the single song `"x"`,
used to instantiate theorems at concrete inputs. -/
def exampleState : Playlists :=
  (add_song (create_playlist emptyPlaylists "a").2 "a" "x").2

/-- Boolean `contains` used by `add_song` agrees with list membership. -/
theorem contains_eq_true_iff (l : List String) (a : String) :
    l.contains a = true ↔ a ∈ l :=
  List.elem_iff

/-- Negative form of `contains_eq_true_iff`. -/
theorem contains_eq_false_iff (l : List String) (a : String) :
    l.contains a = false ↔ a ∉ l := by
  rw [Bool.eq_false_iff]
  exact not_congr (contains_eq_true_iff l a)

/-- The linear search used by `play_song` fails exactly on an absent song. -/
theorem find?_beq_eq_none_iff (l : List String) (a : String) :
    l.find? (fun s => s == a) = none ↔ a ∉ l := by
  rw [List.find?_eq_none]
  constructor
  · intro h ha
    exact absurd (by simp : ((fun s : String => s == a) a) = true) (h a ha)
  · intro ha x hx
    simp only [beq_iff_eq]
    rintro rfl
    exact ha hx

/-- Every branch of `play_song` returns the collection untouched. -/
theorem play_song_snd_eq (ps : Playlists) (p s : String) (o : Bool) :
    (play_song ps p s o).2 = ps := by
  rcases hps : ps p with _ | songs
  · simp [play_song, hps]
  · by_cases he : songs.isEmpty
    · simp [play_song, hps, he]
    · rcases hf : songs.find? (fun x => x == s) with _ | y
      · simp [play_song, hps, he, hf]
      · by_cases ho : o <;> simp [play_song, hps, he, hf, ho]

/-- The playback message decomposes around the song name. -/
theorem playMessage_decomp (s : String) :
    playMessage s =
      ("♪  Afspiller nu: " ++ quoteMark) ++ s ++ (quoteMark ++ "  ♪") := by
  simp [playMessage, String.append_assoc]

/-- Claim C1: `play_song` checks its preconditions strictly in order.  An
absent playlist yields `PlaylistNotFound` regardless of the online flag; an
existing empty playlist yields `EmptyPlaylist`; a non-empty playlist missing
the song yields `SongNotFound`; song present but offline yields `Offline`;
song present and online yields a success message containing the song name. -/
theorem play_song_precondition_order (ps : Playlists) (p s : String)
    (online : Bool) :
    (ps p = none →
      (play_song ps p s online).1 =
        Except.error (MusicError.PlaylistNotFound p)) ∧
    (ps p = some [] →
      (play_song ps p s online).1 =
        Except.error (MusicError.EmptyPlaylist p)) ∧
    (∀ songs, ps p = some songs → songs ≠ [] → s ∉ songs →
      (play_song ps p s online).1 =
        Except.error (MusicError.SongNotFound s)) ∧
    (∀ songs, ps p = some songs → s ∈ songs → online = false →
      (play_song ps p s online).1 = Except.error MusicError.Offline) ∧
    (∀ songs, ps p = some songs → s ∈ songs → online = true →
      ∃ pre post,
        (play_song ps p s online).1 = Except.ok (pre ++ s ++ post)) := by
  refine ⟨?_, ?_, ?_, ?_, ?_⟩
  · intro h
    simp [play_song, h]
  · intro h
    simp [play_song, h]
  · intro songs hps hne hs
    have hf : songs.find? (fun x => x == s) = none :=
      (find?_beq_eq_none_iff songs s).mpr hs
    rcases songs with _ | ⟨a, t⟩
    · exact absurd rfl hne
    · simp [play_song, hps, hf]
  · intro songs hps hs ho
    subst ho
    rcases songs with _ | ⟨a, t⟩
    · exact absurd hs (List.not_mem_nil s)
    · rcases hf : (a :: t).find? (fun x => x == s) with _ | y
      · exact absurd ((find?_beq_eq_none_iff (a :: t) s).mp hf) (fun hn => hn hs)
      · simp [play_song, hps, hf]
  · intro songs hps hs ho
    subst ho
    rcases songs with _ | ⟨a, t⟩
    · exact absurd hs (List.not_mem_nil s)
    · rcases hf : (a :: t).find? (fun x => x == s) with _ | y
      · exact absurd ((find?_beq_eq_none_iff (a :: t) s).mp hf) (fun hn => hn hs)
      · refine ⟨"♪  Afspiller nu: " ++ quoteMark, quoteMark ++ "  ♪", ?_⟩
        rw [← playMessage_decomp]
        simp [play_song, hps, hf]

/-- Witness for C1: each of the five outcomes at a concrete collection. -/
theorem play_song_precondition_order_witness :
    (play_song emptyPlaylists "z" "x" true).1 =
      Except.error (MusicError.PlaylistNotFound "z") ∧
    (play_song (create_playlist emptyPlaylists "e").2 "e" "x" true).1 =
      Except.error (MusicError.EmptyPlaylist "e") ∧
    (play_song exampleState "a" "y" true).1 =
      Except.error (MusicError.SongNotFound "y") ∧
    (play_song exampleState "a" "x" false).1 =
      Except.error MusicError.Offline ∧
    (∃ pre post,
      (play_song exampleState "a" "x" true).1 =
        Except.ok (pre ++ "x" ++ post)) :=
  ⟨(play_song_precondition_order emptyPlaylists "z" "x" true).1 rfl,
   (play_song_precondition_order (create_playlist emptyPlaylists "e").2
      "e" "x" true).2.1 rfl,
   (play_song_precondition_order exampleState "a" "y" true).2.2.1
      ["x"] rfl (by decide) (by decide),
   (play_song_precondition_order exampleState "a" "x" false).2.2.2.1
      ["x"] rfl (by decide) rfl,
   (play_song_precondition_order exampleState "a" "x" true).2.2.2.2
      ["x"] rfl (by decide) rfl⟩

/-- Claim C2: `create_playlist` fails with `PlaylistAlreadyExists` and leaves
the collection unchanged when the name is already a key; otherwise it
succeeds and the new collection maps the name to the empty sequence. -/
theorem create_playlist_spec (ps : Playlists) (name : String) :
    (ps.containsKey name = true →
      create_playlist ps name =
        (Except.error (MusicError.PlaylistAlreadyExists name), ps)) ∧
    (ps.containsKey name = false →
      (create_playlist ps name).1 = Except.ok () ∧
      (create_playlist ps name).2 name = some []) := by
  constructor
  · intro h
    simp [create_playlist, h]
  · intro h
    simp [create_playlist, h, Playlists.insert]

/-- Witness for C2: both branches at a concrete collection. -/
theorem create_playlist_spec_witness :
    create_playlist exampleState "a" =
      (Except.error (MusicError.PlaylistAlreadyExists "a"), exampleState) ∧
    ((create_playlist exampleState "b").1 = Except.ok () ∧
      (create_playlist exampleState "b").2 "b" = some []) :=
  ⟨(create_playlist_spec exampleState "a").1 rfl,
   (create_playlist_spec exampleState "b").2 rfl⟩

/-- Claim C3: `add_song` checks playlist existence before song duplication,
leaves the collection unchanged on either failure, and on success appends the
song at the end of the playlist's sequence. -/
theorem add_song_spec (ps : Playlists) (p s : String) :
    (ps p = none →
      add_song ps p s = (Except.error (MusicError.PlaylistNotFound p), ps)) ∧
    (∀ songs, ps p = some songs → s ∈ songs →
      add_song ps p s =
        (Except.error (MusicError.SongAlreadyInPlaylist s), ps)) ∧
    (∀ songs, ps p = some songs → s ∉ songs →
      (add_song ps p s).1 = Except.ok () ∧
      (add_song ps p s).2 p = some (songs ++ [s])) := by
  refine ⟨?_, ?_, ?_⟩
  · intro h
    simp [add_song, h]
  · intro songs hps hs
    simp [add_song, hps, hs]
  · intro songs hps hs
    simp [add_song, hps, hs, Playlists.insert]

/-- Witness for C3: all three branches at a concrete collection. -/
theorem add_song_spec_witness :
    add_song exampleState "z" "y" =
      (Except.error (MusicError.PlaylistNotFound "z"), exampleState) ∧
    add_song exampleState "a" "x" =
      (Except.error (MusicError.SongAlreadyInPlaylist "x"), exampleState) ∧
    ((add_song exampleState "a" "y").1 = Except.ok () ∧
      (add_song exampleState "a" "y").2 "a" = some (["x"] ++ ["y"])) :=
  ⟨(add_song_spec exampleState "z" "y").1 rfl,
   (add_song_spec exampleState "a" "x").2.1 ["x"] rfl (by decide),
   (add_song_spec exampleState "a" "y").2.2 ["x"] rfl (by decide)⟩

/-- Claim C4: on an unchanged collection, if `play_song` with the online flag
false fails with `Offline`, then the same call with the flag forced true
succeeds (no other error can surface). -/
theorem play_song_offline_retry (ps : Playlists) (p s : String)
    (h : (play_song ps p s false).1 = Except.error MusicError.Offline) :
    (play_song ps p s true).1 = Except.ok (playMessage s) := by
  rcases hps : ps p with _ | songs
  · simp [play_song, hps] at h
  · by_cases he : songs.isEmpty
    · simp [play_song, hps, he] at h
    · rcases hf : songs.find? (fun x => x == s) with _ | y
      · simp [play_song, hps, he, hf] at h
      · simp [play_song, hps, he, hf]

/-- Witness for C4: retrying online after the concrete offline failure. -/
theorem play_song_offline_retry_witness :
    (play_song exampleState "a" "x" true).1 =
      Except.ok (playMessage "x") :=
  play_song_offline_retry exampleState "a" "x" rfl

/-- Each single domain-model call preserves the no-duplicate invariant. -/
theorem applyOp_preserves_nodup (ps : Playlists) (op : Op)
    (h : NodupInv ps) : NodupInv (applyOp ps op) := by
  cases op with
  | create name =>
    intro n songs hn
    by_cases hk : ps.containsKey name
    · simp [applyOp, create_playlist, hk] at hn
      exact h n songs hn
    · simp [applyOp, create_playlist, hk, Playlists.insert] at hn
      split at hn
      · cases hn
        exact List.nodup_nil
      · exact h n songs hn
  | addSong p s =>
    intro n songs hn
    rcases hps : ps p with _ | songs0
    · simp [applyOp, add_song, hps] at hn
      exact h n songs hn
    · by_cases hc : s ∈ songs0
      · simp [applyOp, add_song, hps, hc] at hn
        exact h n songs hn
      · simp [applyOp, add_song, hps, hc, Playlists.insert] at hn
        split at hn
        · cases hn
          rw [List.nodup_append]
          refine ⟨h p songs0 hps, List.nodup_singleton s, ?_⟩
          intro a ha hb
          rw [List.mem_singleton] at hb
          subst hb
          exact hc ha
        · exact h n songs hn
  | play p s o =>
    intro n songs hn
    rw [show applyOp ps (Op.play p s o) = (play_song ps p s o).2 from rfl,
      play_song_snd_eq] at hn
    exact h n songs hn

/-- The no-duplicate invariant is preserved along any call sequence. -/
theorem runOps_preserves_nodup (ops : List Op) :
    ∀ ps, NodupInv ps → NodupInv (runOps ps ops) := by
  induction ops with
  | nil => exact fun ps h => h
  | cons op rest ih =>
    exact fun ps h => ih (applyOp ps op) (applyOp_preserves_nodup ps op h)

/-- Claim C5: in every collection state reachable from the empty collection
by any sequence of create, add-song and play calls, no playlist's song
sequence contains two equal entries. -/
theorem reachable_state_nodup (ops : List Op) (n : String)
    (songs : List String) (h : runOps emptyPlaylists ops n = some songs) :
    songs.Nodup :=
  runOps_preserves_nodup ops emptyPlaylists
    (fun _ _ hx => by simp [emptyPlaylists] at hx) n songs h

/-- Witness for C5: the playlist reached by creating `"a"` and adding `"x"`
has a duplicate-free sequence. -/
theorem reachable_state_nodup_witness : (["x"] : List String).Nodup :=
  reachable_state_nodup [Op.create "a", Op.addSong "a" "x"] "a" ["x"] rfl

/-- Claim C6: `play_song` leaves the collection unchanged whether it returns
`Ok` or `Err`; playback is a pure read. -/
theorem play_song_no_mutation (ps : Playlists) (p s : String)
    (online : Bool) : (play_song ps p s online).2 = ps :=
  play_song_snd_eq ps p s online

/-- Claim C7: no operation removes anything.  After any single create,
add-song or play call, every key present before is still present, and the
old song sequence is a prefix of the new one (it extends by some suffix). -/
theorem applyOp_monotone (ps : Playlists) (op : Op) (n : String)
    (songs : List String) (h : ps n = some songs) :
    ∃ rest, applyOp ps op n = some (songs ++ rest) := by
  cases op with
  | create name =>
    by_cases hk : ps.containsKey name
    · exact ⟨[], by simp [applyOp, create_playlist, hk, h]⟩
    · have hne : n ≠ name := by
        rintro rfl
        simp [Playlists.containsKey, h] at hk
      exact ⟨[], by
        simp [applyOp, create_playlist, hk, Playlists.insert, hne, h]⟩
  | addSong p s =>
    rcases hps : ps p with _ | songs0
    · exact ⟨[], by simp [applyOp, add_song, hps, h]⟩
    · by_cases hc : s ∈ songs0
      · exact ⟨[], by simp [applyOp, add_song, hps, hc, h]⟩
      · by_cases hne : n = p
        · subst hne
          rw [h] at hps
          cases hps
          exact ⟨[s], by simp [applyOp, add_song, h, hc, Playlists.insert]⟩
        · exact ⟨[], by
            simp [applyOp, add_song, hps, hc, Playlists.insert, hne, h]⟩
  | play p s o =>
    exact ⟨[], by simp [applyOp, play_song_snd_eq, h]⟩

/-- Witness for C7: adding `"y"` to playlist `"a"` extends its sequence. -/
theorem applyOp_monotone_witness :
    ∃ rest, applyOp exampleState (Op.addSong "a" "y") "a" =
      some (["x"] ++ rest) :=
  applyOp_monotone exampleState (Op.addSong "a" "y") "a" ["x"] rfl

/-- Claim C8: no operation ever produces the reserved `InvalidUser` error
variant, on any collection state and any input. -/
theorem invalid_user_unreachable (ps : Playlists) (name p s : String)
    (online : Bool) :
    isInvalidUser (create_playlist ps name).1 = false ∧
    isInvalidUser (add_song ps p s).1 = false ∧
    isInvalidUser (play_song ps p s online).1 = false := by
  refine ⟨?_, ?_, ?_⟩
  · by_cases hk : ps.containsKey name <;>
      simp [create_playlist, hk, isInvalidUser]
  · rcases hps : ps p with _ | songs0
    · simp [add_song, hps, isInvalidUser]
    · by_cases hc : s ∈ songs0 <;> simp [add_song, hps, hc, isInvalidUser]
  · rcases hps : ps p with _ | songs0
    · simp [play_song, hps, isInvalidUser]
    · by_cases he : songs0.isEmpty
      · simp [play_song, hps, he, isInvalidUser]
      · rcases hf : songs0.find? (fun x => x == s) with _ | y
        · simp [play_song, hps, he, hf, isInvalidUser]
        · by_cases ho : online <;>
            simp [play_song, hps, he, hf, ho, isInvalidUser]

/-- Claim C9: `create_playlist` does no emptiness validation itself: when the
empty string is not yet a key, creating it succeeds and maps the empty string
to an empty song sequence. -/
theorem create_playlist_empty_name (ps : Playlists) (h : ps "" = none) :
    (create_playlist ps "").1 = Except.ok () ∧
    (create_playlist ps "").2 "" = some [] := by
  have hk : ps.containsKey "" = false := by
    simp [Playlists.containsKey, h]
  simp [create_playlist, hk, Playlists.insert]

/-- Witness for C9: creating the empty-string playlist in the empty
collection. -/
theorem create_playlist_empty_name_witness :
    (create_playlist emptyPlaylists "").1 = Except.ok () ∧
    (create_playlist emptyPlaylists "").2 "" = some [] :=
  create_playlist_empty_name emptyPlaylists rfl

/-- Claim C10: successful mutations touch at most their own entry: a
successful create leaves every other key's sequence unchanged, and a
successful add-song leaves every key other than its playlist unchanged. -/
theorem mutation_frame (ps : Playlists) (name p s k : String) :
    ((create_playlist ps name).1 = Except.ok () → k ≠ name →
      (create_playlist ps name).2 k = ps k) ∧
    ((add_song ps p s).1 = Except.ok () → k ≠ p →
      (add_song ps p s).2 k = ps k) := by
  constructor
  · intro _ hk
    by_cases hc : ps.containsKey name <;>
      simp [create_playlist, hc, Playlists.insert, hk]
  · intro hok hk
    rcases hps : ps p with _ | songs0
    · simp [add_song, hps]
    · by_cases hc : s ∈ songs0
      · simp [add_song, hps, hc]
      · simp [add_song, hps, hc, Playlists.insert, hk]

/-- Witness for C10: framing of one successful create and one successful
add-song on a concrete collection. -/
theorem mutation_frame_witness :
    (create_playlist exampleState "b").2 "a" = exampleState "a" ∧
    (add_song exampleState "a" "y").2 "c" = exampleState "c" :=
  ⟨(mutation_frame exampleState "b" "a" "y" "a").1 rfl (by decide),
   (mutation_frame exampleState "a" "a" "y" "c").2 rfl (by decide)⟩
